import Mathlib

/-!
Shallow embedding of the OIBus connector code relevant to the verified claims.

Machine integers (JS numbers holding epoch milliseconds, counts, settings) are
embedded as Int/Nat with exact arithmetic; every date is its epoch-millisecond
value, so Date.getTime() is the identity and new Date(ms) is ms itself.
External collaborators (the HDA agent, the SFTP server, MongoDB, the glob matcher)
are embedded as explicit inputs describing their observable answers.
-/

namespace OIBus

/-! Section 1: generateIntervals from src/services/utils.js (lines 106-125). -/

/-- An interval of the split, one element of the list built at utils.js line 117,
with both dates as epoch milliseconds. -/
structure Interval where
  startTime : Int
  endTime : Int
deriving Repr, DecidableEq

/-- Embedding of generateIntervals(startTime, endTime, maxInterval) from
src/services/utils.js lines 106-125.  The JS loop runs for integer i with
i < originalInterval / (maxInterval * 1000) (real division), which for any
originalInterval > 1000 * maxInterval > 0 arising from JS dates is exactly
ceil(originalInterval / (1000 * maxInterval)) iterations; that ceiling is
computed here with exact integer arithmetic. -/
def generateIntervals (startTime endTime maxInterval : Int) : List Interval :=
  let originalInterval := endTime - startTime
  if maxInterval > 0 ∧ originalInterval > 1000 * maxInterval then
    let numberOfInterval : Nat := ((originalInterval + 1000 * maxInterval - 1) / (1000 * maxInterval)).toNat
    (List.range numberOfInterval).map (fun (i : Nat) =>
      let newStartTime := startTime + (i : Int) * 1000 * maxInterval
      let newEndTime := startTime + ((i : Int) + 1) * 1000 * maxInterval
      { startTime := newStartTime
        endTime := if newEndTime < endTime then newEndTime else endTime })
  else
    [{ startTime := startTime, endTime := endTime }]

lemma generateIntervals_single (s e mi : Int) (h : mi ≤ 0 ∨ e - s ≤ 1000 * mi) :
    generateIntervals s e mi = [⟨s, e⟩] := by
  simp only [generateIntervals]
  rw [if_neg]
  rintro ⟨hmi, hd⟩
  rcases h with h | h <;> omega

lemma generateIntervals_split_eq (s e mi : Int) (h1 : 0 < mi) (h2 : e - s > 1000 * mi) :
    generateIntervals s e mi =
      (List.range ((e - s + 1000 * mi - 1) / (1000 * mi)).toNat).map (fun i =>
        { startTime := s + (i : Int) * 1000 * mi
          endTime := if s + ((i : Int) + 1) * 1000 * mi < e
                     then s + ((i : Int) + 1) * 1000 * mi else e }) := by
  simp only [generateIntervals]
  rw [if_pos ⟨h1, h2⟩]

lemma ceil_div_mul_ge (d m : Int) (hm : 0 < m) : d ≤ ((d + m - 1) / m) * m := by
  have hdm := Int.ediv_add_emod (d + m - 1) m
  have hr0 : 0 ≤ (d + m - 1) % m := Int.emod_nonneg _ (ne_of_gt hm)
  have hrm : (d + m - 1) % m < m := Int.emod_lt_of_pos _ hm
  nlinarith [hdm, hr0, hrm]

lemma ceil_div_pred_mul_lt (d m : Int) (hm : 0 < m) : (((d + m - 1) / m) - 1) * m < d := by
  have hdm := Int.ediv_add_emod (d + m - 1) m
  have hr0 : 0 ≤ (d + m - 1) % m := Int.emod_nonneg _ (ne_of_gt hm)
  nlinarith [hdm, hr0]

lemma ceil_div_ge_two (d m : Int) (hm : 0 < m) (hd : m < d) : 2 ≤ (d + m - 1) / m := by
  have h1 := ceil_div_mul_ge d m hm
  by_contra hq
  push_neg at hq
  have hq1 : (d + m - 1) / m ≤ 1 := by omega
  nlinarith [h1, hq1]

lemma generateIntervals_split_props (s e mi : Int) (h1 : 0 < mi) (h2 : e - s > 1000 * mi) :
    generateIntervals s e mi ≠ [] ∧
    (generateIntervals s e mi).head?.map Interval.startTime = some s ∧
    (generateIntervals s e mi).getLast?.map Interval.endTime = some e ∧
    (∀ iv ∈ generateIntervals s e mi, iv.endTime - iv.startTime ≤ 1000 * mi) ∧
    List.Chain' (fun a b => a.endTime = b.startTime) (generateIntervals s e mi) := by
  have hm : 0 < 1000 * mi := by omega
  have hq2 : 2 ≤ (e - s + 1000 * mi - 1) / (1000 * mi) := ceil_div_ge_two (e - s) (1000 * mi) hm h2
  have hqm : e - s ≤ ((e - s + 1000 * mi - 1) / (1000 * mi)) * (1000 * mi) :=
    ceil_div_mul_ge (e - s) (1000 * mi) hm
  have hqm' : (((e - s + 1000 * mi - 1) / (1000 * mi)) - 1) * (1000 * mi) < e - s :=
    ceil_div_pred_mul_lt (e - s) (1000 * mi) hm
  set q : Int := (e - s + 1000 * mi - 1) / (1000 * mi) with hqdef
  set n : Nat := q.toNat with hndef
  have hnq : (n : Int) = q := Int.toNat_of_nonneg (by omega)
  have hn2 : 2 ≤ n := by omega
  rw [generateIntervals_split_eq s e mi h1 h2]
  set f : Nat → Interval := fun (i : Nat) =>
    { startTime := s + (i : Int) * 1000 * mi
      endTime := if s + ((i : Int) + 1) * 1000 * mi < e
                 then s + ((i : Int) + 1) * 1000 * mi else e } with hfdef
  have hend_lt : ∀ i : Nat, (i : Int) + 1 < q → (f i).endTime = s + ((i : Int) + 1) * 1000 * mi := by
    intro i hi
    have hle : ((i : Int) + 1) * (1000 * mi) ≤ (q - 1) * (1000 * mi) :=
      mul_le_mul_of_nonneg_right (by omega) (le_of_lt hm)
    have : s + ((i : Int) + 1) * 1000 * mi < e := by nlinarith
    simp only [hfdef, if_pos this]
  have hend_last : ∀ i : Nat, q ≤ (i : Int) + 1 → (f i).endTime = e := by
    intro i hi
    have hle : q * (1000 * mi) ≤ ((i : Int) + 1) * (1000 * mi) :=
      mul_le_mul_of_nonneg_right hi (le_of_lt hm)
    have : ¬ (s + ((i : Int) + 1) * 1000 * mi < e) := by nlinarith
    simp only [hfdef, if_neg this]
  refine ⟨?_, ?_, ?_, ?_, ?_⟩
  · intro hnil
    have := congrArg List.length hnil
    simp at this
    omega
  · rw [List.head?_eq_getElem?]
    have h0 : 0 < ((List.range n).map f).length := by simp; omega
    rw [List.getElem?_eq_getElem h0]
    simp [List.getElem_map, List.getElem_range, hfdef]
  · rw [List.getLast?_eq_getElem?]
    have hlen : ((List.range n).map f).length = n := by simp
    have hidx : n - 1 < ((List.range n).map f).length := by simp; omega
    rw [hlen, List.getElem?_eq_getElem hidx]
    have : ((List.range n).map f)[n-1] = f (n - 1) := by
      rw [List.getElem_map]
      congr 1
      simp [List.getElem_range]
    rw [this]
    simp only [Option.map_some']
    have hcast : ((n - 1 : Nat) : Int) + 1 = q := by
      push_cast [Nat.cast_sub (by omega : 1 ≤ n)]
      omega
    rw [hcast]
    have hge : ¬ (s + q * 1000 * mi < e) := by nlinarith
    rw [if_neg hge]
  · intro iv hiv
    rw [List.mem_map] at hiv
    obtain ⟨i, hi, rfl⟩ := hiv
    by_cases hlt : s + ((i : Int) + 1) * 1000 * mi < e
    · simp only [hfdef, if_pos hlt]
      ring_nf
      nlinarith
    · simp only [hfdef, if_neg hlt]
      push_neg at hlt
      nlinarith
  · rw [List.chain'_iff_get]
    intro i hi
    have hlen : ((List.range n).map f).length = n := by simp
    rw [hlen] at hi
    have hi1 : i < n := by omega
    have hi2 : i + 1 < n := by omega
    simp only [List.get_eq_getElem, List.getElem_map, List.getElem_range]
    have hq : (i : Int) + 1 < q := by
      have : ((i : Nat) : Int) + 1 ≤ (n : Int) - 1 := by omega
      omega
    have hle : ((i : Int) + 1) * (1000 * mi) ≤ (q - 1) * (1000 * mi) :=
      mul_le_mul_of_nonneg_right (by omega) (le_of_lt hm)
    have hlt : s + ((i : Int) + 1) * 1000 * mi < e := by nlinarith
    rw [if_pos hlt]
    push_cast
    ring

/-- C1: for startTime earlier than endTime and maxInterval > 0, generateIntervals
returns consecutive sub-intervals starting at startTime, ending exactly at endTime,
each at most maxInterval seconds long; for a window at most maxInterval seconds (or
maxInterval nonpositive) it returns the single interval; and a 2-hour window with
maxInterval 3600 splits into exactly two 1-hour sub-intervals. -/
theorem generateIntervals_bounds_and_covers (s e mi : Int) (_hse : s < e) :
    (0 < mi →
      generateIntervals s e mi ≠ [] ∧
      (generateIntervals s e mi).head?.map Interval.startTime = some s ∧
      (generateIntervals s e mi).getLast?.map Interval.endTime = some e ∧
      (∀ iv ∈ generateIntervals s e mi, iv.endTime - iv.startTime ≤ 1000 * mi) ∧
      List.Chain' (fun a b => a.endTime = b.startTime) (generateIntervals s e mi)) ∧
    (mi ≤ 0 ∨ e - s ≤ 1000 * mi → generateIntervals s e mi = [⟨s, e⟩]) ∧
    generateIntervals 0 7200000 3600 = [⟨0, 3600000⟩, ⟨3600000, 7200000⟩] := by
  refine ⟨?_, generateIntervals_single s e mi, ?_⟩
  · intro hmi
    by_cases hsplit : e - s > 1000 * mi
    · exact generateIntervals_split_props s e mi hmi hsplit
    · push_neg at hsplit
      rw [generateIntervals_single s e mi (Or.inr hsplit)]
      refine ⟨by simp, by simp, by simp, ?_, by simp⟩
      intro iv hiv
      simp at hiv
      subst hiv
      simp
      omega
  · decide

theorem generateIntervals_bounds_and_covers_witness :
    (0 : Int) < 7200000 ∧
    generateIntervals 0 7200000 3600 = [⟨0, 3600000⟩, ⟨3600000, 7200000⟩] :=
  ⟨by decide, (generateIntervals_bounds_and_covers 0 7200000 3600 (by decide)).2.2⟩


/-! Section 2: outgoing file-name computation shared by generateFormDataBodyFromFile
(src/services/utils.js lines 17-28) and NorthSFTP.handleFile
(backend/src/north/north-sftp/north-sftp.ts lines 61-75).  File names are lists of
characters; path.parse has already split the base name (name) from the extension
(ext). -/

/-- Embedding of JS String.prototype.lastIndexOf for a one-character search string:
the greatest index holding c, or -1 when c does not occur. -/
def lastIndexOf : List Char → Char → Int
  | [], _ => -1
  | x :: xs, c =>
    let r := lastIndexOf xs c
    if r ≥ 0 then r + 1
    else if x == c then 0 else -1

/-- Embedding of s.slice(0, e) on JS strings: a negative e counts back from the end
of the string (clamped at 0), a nonnegative e is clamped at the length. -/
def sliceFromStart (s : List Char) (e : Int) : List Char :=
  if e < 0 then s.take ((s.length : Int) + e).toNat else s.take e.toNat

/-- name.slice(0, name.lastIndexOf('-')), the base-name truncation performed at
utils.js line 23 and north-sftp.ts line 66. -/
def truncAtLastDash (name : List Char) : List Char :=
  sliceFromStart name (lastIndexOf name '-')

/-- The outgoing file name built by generateFormDataBodyFromFile (utils.js line 25). -/
def formDataFilename (name ext : List Char) : List Char :=
  truncAtLastDash name ++ ext

/-- The outgoing file name built by NorthSFTP.handleFile (north-sftp.ts line 71), with
the already-substituted prefix and suffix settings passed in as pre and suf. -/
def sftpResultingFilename (pre name suf ext : List Char) : List Char :=
  pre ++ truncAtLastDash name ++ suf ++ ext

lemma lastIndexOf_of_not_mem (s : List Char) (c : Char) (h : c ∉ s) :
    lastIndexOf s c = -1 := by
  induction s with
  | nil => rfl
  | cons x xs ih =>
    have hx : ¬ (x == c) := by
      simp only [beq_iff_eq]
      intro hxc
      exact h (hxc ▸ List.mem_cons_self x xs)
    have hxs : c ∉ xs := fun hmem => h (List.mem_cons_of_mem x hmem)
    simp only [lastIndexOf, ih hxs]
    rw [if_neg (by norm_num : ¬ ((-1 : Int) ≥ 0)), if_neg hx]

lemma lastIndexOf_append_last (p s : List Char) (c : Char) (h : c ∉ s) :
    lastIndexOf (p ++ c :: s) c = (p.length : Int) := by
  induction p with
  | nil =>
    simp only [List.nil_append, lastIndexOf, lastIndexOf_of_not_mem s c h]
    norm_num
  | cons x p' ih =>
    simp only [List.cons_append, lastIndexOf, List.append_eq, ih]
    rw [if_pos (show ((p'.length : Int)) ≥ 0 from Int.natCast_nonneg _)]
    simp

lemma exists_last_occurrence (name : List Char) (c : Char) (h : c ∈ name) :
    ∃ p s, name = p ++ c :: s ∧ c ∉ s := by
  induction name with
  | nil => cases h
  | cons x xs ih =>
    by_cases hx : c ∈ xs
    · obtain ⟨p, s, rfl, hs⟩ := ih hx
      exact ⟨x :: p, s, rfl, hs⟩
    · have : x = c := by
        rcases List.mem_cons.mp h with h1 | h1
        · exact h1.symm
        · exact absurd h1 hx
      exact ⟨[], xs, by rw [this, List.nil_append], hx⟩

lemma truncAtLastDash_of_not_mem (name : List Char) (h : ('-' : Char) ∉ name) :
    truncAtLastDash name = name.dropLast := by
  simp only [truncAtLastDash, lastIndexOf_of_not_mem name _ h, sliceFromStart]
  rw [if_pos (by norm_num)]
  rw [List.dropLast_eq_take]
  congr 1
  omega

lemma truncAtLastDash_append (p s : List Char) (h : ('-' : Char) ∉ s) :
    truncAtLastDash (p ++ '-' :: s) = p := by
  simp only [truncAtLastDash, lastIndexOf_append_last p s _ h, sliceFromStart]
  rw [if_neg (by omega)]
  have hcast : ((p.length : Int)).toNat = p.length := by omega
  rw [hcast]
  exact List.take_left p ('-' :: s)

/-- C10: both generateFormDataBodyFromFile and NorthSFTP.handleFile name the
outgoing file by cutting the parsed base name at its last dash and appending
the original extension; a base name without a dash instead loses its final
character. -/
theorem outgoing_filename_truncates_at_last_dash (name ext pre suf : List Char) :
    (('-' : Char) ∈ name → ∃ p s, name = p ++ '-' :: s ∧ ('-' : Char) ∉ s ∧
        truncAtLastDash name = p ∧
        formDataFilename name ext = p ++ ext ∧
        sftpResultingFilename pre name suf ext = pre ++ p ++ suf ++ ext) ∧
    (('-' : Char) ∉ name →
        truncAtLastDash name = name.dropLast ∧
        formDataFilename name ext = name.dropLast ++ ext ∧
        sftpResultingFilename pre name suf ext = pre ++ name.dropLast ++ suf ++ ext) := by
  constructor
  · intro h
    obtain ⟨p, s, rfl, hs⟩ := exists_last_occurrence name '-' h
    refine ⟨p, s, rfl, hs, truncAtLastDash_append p s hs, ?_, ?_⟩
    · simp [formDataFilename, truncAtLastDash_append p s hs]
    · simp [sftpResultingFilename, truncAtLastDash_append p s hs]
  · intro h
    refine ⟨truncAtLastDash_of_not_mem name h, ?_, ?_⟩
    · simp [formDataFilename, truncAtLastDash_of_not_mem name h]
    · simp [sftpResultingFilename, truncAtLastDash_of_not_mem name h]

/-- Witness for C10 at the concrete base name "file-123" with extension ".csv"
and at the dash-free base name "abc". -/
theorem outgoing_filename_truncates_at_last_dash_witness :
    (('-' : Char) ∈ ['f', 'i', 'l', 'e', '-', '1', '2', '3'] ∧
      ∃ p s, ['f', 'i', 'l', 'e', '-', '1', '2', '3'] = p ++ '-' :: s ∧ ('-' : Char) ∉ s ∧
        truncAtLastDash ['f', 'i', 'l', 'e', '-', '1', '2', '3'] = p ∧
        formDataFilename ['f', 'i', 'l', 'e', '-', '1', '2', '3'] ['.', 'c', 's', 'v'] = p ++ ['.', 'c', 's', 'v'] ∧
        sftpResultingFilename [] ['f', 'i', 'l', 'e', '-', '1', '2', '3'] [] ['.', 'c', 's', 'v'] =
          [] ++ p ++ [] ++ ['.', 'c', 's', 'v']) ∧
    (('-' : Char) ∉ ['a', 'b', 'c'] ∧
      truncAtLastDash ['a', 'b', 'c'] = ['a', 'b', 'c'].dropLast) :=
  ⟨⟨by decide,
    (outgoing_filename_truncates_at_last_dash ['f', 'i', 'l', 'e', '-', '1', '2', '3']
      ['.', 'c', 's', 'v'] [] []).1 (by decide)⟩,
   by decide,
   ((outgoing_filename_truncates_at_last_dash ['a', 'b', 'c'] ['.', 'c', 's', 'v'] [] []).2
      (by decide)).1⟩

/-! Section 3: SouthOPCHDA (src/unnamed/part_001): historyQuery (lines 102-123),
disconnect (lines 128-139) and handleReadMessage (lines 211-263).  Timestamps are
epoch milliseconds; the historyRead deferred promise is represented by the value it
settles with. -/

/-- One point of an agent read response (an element of messageObject.Content.Points);
a missing Timestamp or Value field is none. -/
structure AgentPoint where
  itemId : String
  timestamp : Option Int
  value : Option String
  quality : String
deriving Repr, DecidableEq

/-- The Content of an agent read message. -/
structure ReadContent where
  error : Option String
  disconnected : Bool
  points : Option (List AgentPoint)
  group : String
deriving Repr, DecidableEq

/-- One configured point of a scan group (an entry of itemsByGroups(...).points). -/
structure GroupPoint where
  name : String
  nodeId : String
deriving Repr, DecidableEq

/-- A scan group as stored in itemsByGroups. -/
structure ScanGroup where
  points : List GroupPoint
deriving Repr, DecidableEq

/-- A value passed to this.addValues (part_001 lines 254-258). -/
structure DataValue where
  pointId : String
  timestamp : Int
  value : String
  quality : String
deriving Repr, DecidableEq

/-- Observable timer and connection state of the SouthOPCHDA connector: whether the
connect-retry timer and the history-read timeout would still fire, and whether the
agent/base connection is up. -/
structure OpchdaState where
  reconnectPending : Bool
  historyReadTimeoutPending : Bool
  connected : Bool
deriving Repr, DecidableEq

/-- Modelled from the spec: agent.disconnect() and the base-class
SouthConnector.disconnect() are not under src/; per the spec they tear down
whatever handle exists and are a no-op rather than an error when already
disconnected. -/
def baseDisconnect (st : OpchdaState) : OpchdaState :=
  { st with connected := false }

/-- Embedding of SouthOPCHDA.disconnect (part_001 lines 128-139): clear the
reconnect timer and the history-read timeout when present, then disconnect the
agent and the base class. -/
def disconnect (st : OpchdaState) : OpchdaState :=
  let st1 := if st.reconnectPending then { st with reconnectPending := false } else st
  let st2 := if st1.historyReadTimeoutPending then { st1 with historyReadTimeoutPending := false } else st1
  baseDisconnect st2

/-- Settlement of the historyRead deferred promise. -/
inductive ReadOutcome
  | rejected (msg : String)
  | resolved (v : Int)
deriving Repr, DecidableEq

/-- Effect of handleReadMessage: the post state, the settlement it hands the
historyRead deferred, and the values passed to addValues. -/
structure ReadEffect where
  state : OpchdaState
  outcome : ReadOutcome
  values : List DataValue
deriving Repr, DecidableEq

/-- Lookup of itemsByGroups.get(name). -/
def lookupGroup (groups : List (String × ScanGroup)) (name : String) : Option ScanGroup :=
  (groups.find? (fun g => g.1 == name)).map Prod.snd

/-- The pointId resolution of part_001 line 250:
associatedGroup.points.find(p => p.nodeId === point.ItemId)?.name || point.ItemId,
where the JS || also replaces an empty found name by the ItemId. -/
def resolvePointId (g : ScanGroup) (itemId : String) : String :=
  match g.points.find? (fun q => q.nodeId == itemId) with
  | some q => if q.name = "" then itemId else q.name
  | none => itemId

/-- The greatest Timestamp among the points that carry both a Timestamp and a Value,
accumulated from 0 exactly as the maxTimestamp fold of part_001 lines 242-252. -/
def maxObservedTs (pts : List AgentPoint) : Int :=
  (pts.filter (fun p => p.timestamp.isSome && p.value.isSome)).foldl
    (fun acc p => if p.timestamp.getD 0 > acc then p.timestamp.getD 0 else acc) 0

/-- Embedding of SouthOPCHDA.handleReadMessage (part_001 lines 211-263), with the
source's sequential checks: Content.Error first (with the Disconnected sub-case of
lines 213-217), then an undefined Content.Points, then an empty point list, then an
unknown group, and finally the value conversion of lines 242-259. -/
def handleReadMessage (st : OpchdaState) (groups : List (String × ScanGroup)) :
    ReadContent → ReadEffect
  | { error := some err, disconnected := d, points := _, group := _ } =>
    if d then
      -- lines 214-216: await this.disconnect(); this.reconnectTimeout = setTimeout(...):
      -- a fresh reconnect is scheduled after the disconnect completes, then the
      -- deferred is rejected with the agent error
      { state := { disconnect st with reconnectPending := true }
        outcome := .rejected err
        values := [] }
    else
      { state := st, outcome := .rejected err, values := [] }
  | { error := none, disconnected := _, points := none, group := grp } =>
    { state := st
      outcome := .rejected ("Missing points entry in response for group \"" ++ grp ++ "\"")
      values := [] }
  | { error := none, disconnected := _, points := some pts, group := grp } =>
    if pts.length = 0 then
      { state := st, outcome := .resolved 0, values := [] }
    else
      match lookupGroup groups grp with
      | none =>
        { state := st
          outcome := .rejected ("Group \"" ++ grp ++ "\" not found")
          values := [] }
      | some g =>
        { state := st
          outcome := .resolved (maxObservedTs pts + 1)
          values := (pts.filter (fun p => p.timestamp.isSome && p.value.isSome)).map
            (fun p =>
              { pointId := resolvePointId g p.itemId
                timestamp := p.timestamp.getD 0
                value := p.value.getD ""
                quality := p.quality }) }

/-- The message carried by the readTimeout rejection (part_001 line 114). -/
def readTimeoutError (readTimeout : Int) : String :=
  "History query has not succeeded in the requested readTimeout: " ++ toString readTimeout ++ "s"

/-- Embedding of the tail of SouthOPCHDA.historyQuery (part_001 lines 105-122):
settlement is how the historyRead deferred settles (the first handleReadMessage
outcome, or the readTimeout rejection); a rejection propagates out of the await and
a resolution yields retrievedTimestamp when it exceeds the startTime milliseconds,
else that startTime. -/
def historyQuery (startTime : Int) (settlement : Except String Int) : Except String Int :=
  match settlement with
  | .error e => .error e
  | .ok retrievedTimestamp =>
    .ok (if retrievedTimestamp > startTime then retrievedTimestamp else startTime)

/-- Settlement of the deferred from a read outcome. -/
def settleOf : ReadOutcome → Except String Int
  | .rejected m => .error m
  | .resolved v => .ok v

/-- A full single-response history query: how historyQuery ends when the agent
answers with msg. -/
def historyQueryRun (st : OpchdaState) (groups : List (String × ScanGroup))
    (startTime : Int) (msg : ReadContent) : Except String Int :=
  historyQuery startTime (settleOf (handleReadMessage st groups msg).outcome)

/-- Modelled from the spec: the history engine that persists HistoryState (the
base-class caller of historyQuery, not under src/) advances the stored instant only
when historyQuery succeeds and leaves it unchanged when it rejects. -/
def historyStateAfter (prev : Int) (result : Except String Int) : Int :=
  match result with
  | .ok v => v
  | .error _ => prev


/-- C2 counterexample: the agent returns a single value observed at 1000 ms for a
known group; historyQuery over a window starting at 0 returns 1001, one millisecond
after the only (hence maximum) observed timestamp, so it does not return the
maximum timestamp actually observed (nor the window end). -/
theorem opchda_resumption_not_max_observed :
    ((handleReadMessage ⟨false, false, true⟩ [("g", ⟨[⟨"p1", "n1"⟩]⟩)]
        ⟨none, false, some [⟨"n1", some 1000, some "42", "q"⟩], "g"⟩).values.map
      DataValue.timestamp) = [1000] ∧
    historyQueryRun ⟨false, false, true⟩ [("g", ⟨[⟨"p1", "n1"⟩]⟩)] 0
        ⟨none, false, some [⟨"n1", some 1000, some "42", "q"⟩], "g"⟩ = .ok 1001 ∧
    (1001 : Int) ≠ 1000 :=
  ⟨rfl, rfl, by decide⟩

/-- C2 (amended): on a successful read response carrying a non-empty point list for
a known group, historyQuery returns one millisecond after the greatest timestamp
observed among the valid returned values, clamped below by startTime — not the
window end, which never enters the computation. -/
theorem opchda_resumption_succ_of_max_observed (st : OpchdaState)
    (groups : List (String × ScanGroup)) (startTime : Int) (msg : ReadContent)
    (pts : List AgentPoint) (g : ScanGroup)
    (h1 : msg.error = none) (h2 : msg.points = some pts) (h3 : pts ≠ [])
    (h4 : lookupGroup groups msg.group = some g) :
    historyQueryRun st groups startTime msg = .ok (max startTime (maxObservedTs pts + 1)) := by
  obtain ⟨err, d, ps, grp⟩ := msg
  obtain rfl : err = none := h1
  obtain rfl : ps = some pts := h2
  have h4' : lookupGroup groups grp = some g := h4
  unfold historyQueryRun
  simp only [handleReadMessage]
  rw [if_neg (by simpa using h3), h4']
  simp only [settleOf, historyQuery]
  have hmax : (if maxObservedTs pts + 1 > startTime then maxObservedTs pts + 1 else startTime) =
      max startTime (maxObservedTs pts + 1) := by
    rcases le_or_lt (maxObservedTs pts + 1) startTime with hc | hc
    · rw [if_neg (by omega), max_eq_left hc]
    · rw [if_pos hc, max_eq_right (le_of_lt hc)]
  rw [hmax]

/-- Witness for the amended C2 at a concrete two-point response. -/
theorem opchda_resumption_succ_of_max_observed_witness :
    (⟨none, false, some [⟨"n1", some 1000, some "42", "q"⟩, ⟨"n2", some 2000, some "43", "q"⟩],
        "g"⟩ : ReadContent).error = none ∧
    historyQueryRun ⟨false, false, true⟩ [("g", ⟨[⟨"p1", "n1"⟩]⟩)] 0
        ⟨none, false, some [⟨"n1", some 1000, some "42", "q"⟩, ⟨"n2", some 2000, some "43", "q"⟩], "g"⟩ =
      .ok (max 0 (maxObservedTs [⟨"n1", some 1000, some "42", "q"⟩, ⟨"n2", some 2000, some "43", "q"⟩] + 1)) :=
  ⟨rfl,
   opchda_resumption_succ_of_max_observed ⟨false, false, true⟩ [("g", ⟨[⟨"p1", "n1"⟩]⟩)] 0
     ⟨none, false, some [⟨"n1", some 1000, some "42", "q"⟩, ⟨"n2", some 2000, some "43", "q"⟩], "g"⟩
     [⟨"n1", some 1000, some "42", "q"⟩, ⟨"n2", some 2000, some "43", "q"⟩] ⟨[⟨"p1", "n1"⟩]⟩
     rfl rfl (by decide) rfl⟩

/-- C3: every failing read attempt — agent error, missing Points entry, unknown
group, or readTimeout expiry — rejects the historyRead deferred with the
corresponding descriptive message while passing no values to the engine, so
historyQuery yields no new resumption instant and the (spec-modelled) persisted
history state is unchanged; the timeout rejection names the configured
readTimeout. -/
theorem opchda_failure_rejects_without_progress (st : OpchdaState)
    (groups : List (String × ScanGroup)) (msg : ReadContent) (startTime prev t : Int)
    (h : (∃ err, msg.error = some err) ∨
         (msg.error = none ∧ msg.points = none) ∨
         (msg.error = none ∧ ∃ pts, msg.points = some pts ∧ pts ≠ [] ∧
            lookupGroup groups msg.group = none)) :
    (∃ m, (handleReadMessage st groups msg).outcome = .rejected m ∧
       (handleReadMessage st groups msg).values = [] ∧
       historyQueryRun st groups startTime msg = .error m ∧
       historyStateAfter prev (historyQueryRun st groups startTime msg) = prev) ∧
    historyQuery startTime (.error (readTimeoutError t)) = .error (readTimeoutError t) ∧
    historyStateAfter prev (.error (readTimeoutError t)) = prev ∧
    (∃ a b, readTimeoutError t = a ++ toString t ++ b) := by
  refine ⟨?_, rfl, rfl,
    ⟨"History query has not succeeded in the requested readTimeout: ", "s", rfl⟩⟩
  obtain ⟨err, d, ps, grp⟩ := msg
  have hrej : ∃ m, handleReadMessage st groups ⟨err, d, ps, grp⟩ =
      { state := (handleReadMessage st groups ⟨err, d, ps, grp⟩).state
        outcome := .rejected m
        values := [] } := by
    rcases h with ⟨e, he⟩ | ⟨he, hps⟩ | ⟨he, pts, hps, hne, hlk⟩
    · obtain rfl : err = some e := he
      refine ⟨e, ?_⟩
      simp only [handleReadMessage]
      by_cases hd : d <;> simp [hd]
    · obtain rfl : err = none := he
      obtain rfl : ps = none := hps
      exact ⟨_, rfl⟩
    · obtain rfl : err = none := he
      obtain rfl : ps = some pts := hps
      have hlk' : lookupGroup groups grp = none := hlk
      refine ⟨"Group \"" ++ grp ++ "\" not found", ?_⟩
      simp only [handleReadMessage]
      rw [if_neg (by simpa using hne), hlk']
  obtain ⟨m, hm⟩ := hrej
  refine ⟨m, ?_, ?_, ?_, ?_⟩
  · rw [hm]
  · rw [hm]
  · unfold historyQueryRun
    rw [hm]
    rfl
  · unfold historyQueryRun
    rw [hm]
    rfl

/-- Witness for C3 at a concrete unknown-group response. -/
theorem opchda_failure_rejects_without_progress_witness :
    ((∃ err, (⟨none, false, some [⟨"n1", some 5, some "1", "q"⟩], "nope"⟩ : ReadContent).error = some err) ∨
      ((⟨none, false, some [⟨"n1", some 5, some "1", "q"⟩], "nope"⟩ : ReadContent).error = none ∧
        (⟨none, false, some [⟨"n1", some 5, some "1", "q"⟩], "nope"⟩ : ReadContent).points = none) ∨
      ((⟨none, false, some [⟨"n1", some 5, some "1", "q"⟩], "nope"⟩ : ReadContent).error = none ∧
        ∃ pts, (⟨none, false, some [⟨"n1", some 5, some "1", "q"⟩], "nope"⟩ : ReadContent).points = some pts ∧
          pts ≠ [] ∧ lookupGroup [("g", ⟨[⟨"p1", "n1"⟩]⟩)] "nope" = none)) ∧
    (∃ m, (handleReadMessage ⟨false, false, true⟩ [("g", ⟨[⟨"p1", "n1"⟩]⟩)]
        ⟨none, false, some [⟨"n1", some 5, some "1", "q"⟩], "nope"⟩).outcome = .rejected m ∧
      (handleReadMessage ⟨false, false, true⟩ [("g", ⟨[⟨"p1", "n1"⟩]⟩)]
        ⟨none, false, some [⟨"n1", some 5, some "1", "q"⟩], "nope"⟩).values = [] ∧
      historyQueryRun ⟨false, false, true⟩ [("g", ⟨[⟨"p1", "n1"⟩]⟩)] 0
        ⟨none, false, some [⟨"n1", some 5, some "1", "q"⟩], "nope"⟩ = .error m ∧
      historyStateAfter 77 (historyQueryRun ⟨false, false, true⟩ [("g", ⟨[⟨"p1", "n1"⟩]⟩)] 0
        ⟨none, false, some [⟨"n1", some 5, some "1", "q"⟩], "nope"⟩) = 77) :=
  ⟨Or.inr (Or.inr ⟨rfl, [⟨"n1", some 5, some "1", "q"⟩], rfl, by decide, by decide⟩),
   (opchda_failure_rejects_without_progress ⟨false, false, true⟩ [("g", ⟨[⟨"p1", "n1"⟩]⟩)]
     ⟨none, false, some [⟨"n1", some 5, some "1", "q"⟩], "nope"⟩ 0 77 9
     (Or.inr (Or.inr ⟨rfl, [⟨"n1", some 5, some "1", "q"⟩], rfl, by decide, by decide⟩))).1⟩

/-- C5 counterexample: handling an agent read error flagged Disconnected performs a
disconnect and then re-arms the reconnect timer (part_001 lines 215-216), so after
that disconnect completes a new reconnect is scheduled — the post state is exactly
the disconnected state with reconnectPending set back to true. -/
theorem opchda_reconnect_scheduled_after_disconnect :
    (handleReadMessage ⟨false, false, true⟩ []
        ⟨some "err", true, none, "g"⟩).state.reconnectPending = true ∧
    (handleReadMessage ⟨false, false, true⟩ []
        ⟨some "err", true, none, "g"⟩).state =
      { disconnect ⟨false, false, true⟩ with reconnectPending := true } ∧
    (disconnect ⟨false, false, true⟩).reconnectPending = false :=
  ⟨rfl, rfl, rfl⟩

/-- C5 (amended): disconnect cancels the pending connect-retry timer and the
pending history-read timeout in every state the connector can be in, so no
previously scheduled attempt fires after it resolves; the agent-disconnected read
handler, however, re-arms a reconnect after its internal disconnect completes. -/
theorem opchda_disconnect_cancels_timers (st : OpchdaState) :
    (disconnect st).reconnectPending = false ∧
    (disconnect st).historyReadTimeoutPending = false ∧
    (handleReadMessage ⟨true, true, true⟩ []
        ⟨some "e", true, none, "g"⟩).state.reconnectPending = true := by
  obtain ⟨r, h, c⟩ := st
  refine ⟨?_, ?_, rfl⟩ <;> cases r <;> cases h <;> rfl

/-- C7: disconnect on an already-disconnected connector — no pending timers, agent
and base connection down — is a no-op that leaves the state unchanged (and, being a
total function, throws nothing), and a second disconnect from any state has the
same effect as a single one. -/
theorem opchda_disconnect_idempotent_noop (st : OpchdaState) :
    disconnect (disconnect st) = disconnect st ∧
    disconnect ⟨false, false, false⟩ = ⟨false, false, false⟩ := by
  obtain ⟨r, h, c⟩ := st
  refine ⟨?_, rfl⟩
  cases r <;> cases h <;> rfl

/-- C8: whenever the historyRead deferred resolves — in particular with 0 when the
agent returns an empty point list — historyQuery returns at least the startTime of
the queried window, so the watermark never moves backward across successful query
segments. -/
theorem opchda_resumption_ge_startTime (st : OpchdaState)
    (groups : List (String × ScanGroup)) (startTime : Int) (msg : ReadContent) :
    (∀ v, (handleReadMessage st groups msg).outcome = .resolved v →
      historyQueryRun st groups startTime msg = .ok (max startTime v) ∧
      startTime ≤ max startTime v) ∧
    (∀ d grp, msg = ⟨none, d, some [], grp⟩ →
      (handleReadMessage st groups msg).outcome = .resolved 0) := by
  constructor
  · intro v hv
    constructor
    · unfold historyQueryRun
      rw [hv]
      simp only [settleOf, historyQuery]
      rcases le_or_lt v startTime with hc | hc
      · rw [if_neg (by omega), max_eq_left hc]
      · rw [if_pos hc, max_eq_right (le_of_lt hc)]
    · exact le_max_left _ _
  · rintro d grp rfl
    rfl

/-- Witness for C8 at an empty agent response over a window starting at 42. -/
theorem opchda_resumption_ge_startTime_witness :
    (handleReadMessage ⟨false, false, true⟩ [] ⟨none, false, some [], "g"⟩).outcome =
      .resolved 0 ∧
    historyQueryRun ⟨false, false, true⟩ [] 42 ⟨none, false, some [], "g"⟩ =
      .ok (max 42 0) ∧
    (42 : Int) ≤ max 42 0 :=
  ⟨rfl,
   ((opchda_resumption_ge_startTime ⟨false, false, true⟩ [] 42
       ⟨none, false, some [], "g"⟩).1 0 rfl).1,
   ((opchda_resumption_ge_startTime ⟨false, false, true⟩ [] 42
       ⟨none, false, some [], "g"⟩).1 0 rfl).2⟩

/-! Section 4: the MongoDB north driver (src/north/mongodb/MongoDB.class.js):
handleValues (lines 79-92) and makeRequest (lines 152-237).  The regExp/vsprintf
body construction is represented by an abstract per-entry encoding into a document
(none when the regExp groups do not cover the placeholders and the entry is skipped
with a logged error, lines 170-177); what matters to delivery is which documents
reach insertMany. -/

/-- A value handed to the MongoDB driver. -/
structure MongoValue where
  pointId : String
  data : String
deriving Repr, DecidableEq

/-- The MongoDB configuration field driving the collection check. -/
structure MongoConfig where
  createCollection : Bool
deriving Repr, DecidableEq

/-- Driver state: whether the collection-existence check has run (collectionChecked
is set to false on each successful connect, MongoDB.class.js line 127) and the
batches of documents delivered through insertMany (line 234). -/
structure MongoState where
  collectionChecked : Bool
  inserted : List (List String)
deriving Repr, DecidableEq

/-- The driver state right after MongoDB.connect succeeds: the collection check has
not run and nothing has been inserted. -/
def freshMongoState : MongoState :=
  { collectionChecked := false, inserted := [] }

/-- Embedding of MongoDB.makeRequest (lines 152-237): build the body from the
entries, then — only when collectionChecked is already true — insert it through
insertMany; when collectionChecked is false the body is dropped: with
createCollection set, ensureCollectionExists (lines 249-293) creates the collection
and sets collectionChecked without inserting, and with createCollection unset
nothing happens at all.  The source returns true on every path (line 236). -/
def makeRequest (cfg : MongoConfig) (encode : MongoValue → Option String)
    (st : MongoState) (entries : List MongoValue) : MongoState × Bool :=
  let body := entries.filterMap encode
  if ¬ st.collectionChecked then
    if cfg.createCollection then
      ({ st with collectionChecked := true }, true)
    else
      (st, true)
  else
    ({ st with inserted := st.inserted ++ [body] }, true)

/-- Embedding of MongoDB.handleValues (lines 79-92): await makeRequest, update the
status counters, and return values.length; a makeRequest rejection would become
STATUS.COMMUNICATION_ERROR, but makeRequest (total as embedded, since the insert of
line 234 is not even awaited in the source) always returns. -/
def mongoHandleValues (cfg : MongoConfig) (encode : MongoValue → Option String)
    (st : MongoState) (values : List MongoValue) : MongoState × Except String Nat :=
  ((makeRequest cfg encode st values).1, .ok values.length)

/-- C4: on the first handleValues call after a fresh connection the MongoDB driver
reports success for the whole batch while inserting no document, and with
createCollection unset the state does not even advance, so no later call inserts
either — the code violates the fail-loudly-on-non-delivery contract on this path. -/
theorem mongodb_first_batch_reported_sent_but_not_inserted
    (cfg : MongoConfig) (encode : MongoValue → Option String) (values : List MongoValue) :
    (mongoHandleValues cfg encode freshMongoState values).2 = .ok values.length ∧
    (mongoHandleValues cfg encode freshMongoState values).1.inserted = [] ∧
    (cfg.createCollection = false →
      (mongoHandleValues cfg encode freshMongoState values).1 = freshMongoState) := by
  unfold mongoHandleValues makeRequest freshMongoState
  by_cases hcc : cfg.createCollection <;> simp [hcc]

/-- Witness for C4 at one concrete value with createCollection unset. -/
theorem mongodb_first_batch_reported_sent_but_not_inserted_witness :
    (mongoHandleValues ⟨false⟩ (fun v => some v.pointId) freshMongoState
        [⟨"p1", "1"⟩]).2 = .ok 1 ∧
    (mongoHandleValues ⟨false⟩ (fun v => some v.pointId) freshMongoState
        [⟨"p1", "1"⟩]).1.inserted = [] ∧
    (mongoHandleValues ⟨false⟩ (fun v => some v.pointId) freshMongoState
        [⟨"p1", "1"⟩]).1 = freshMongoState :=
  ⟨(mongodb_first_batch_reported_sent_but_not_inserted ⟨false⟩ (fun v => some v.pointId)
      [⟨"p1", "1"⟩]).1,
   (mongodb_first_batch_reported_sent_but_not_inserted ⟨false⟩ (fun v => some v.pointId)
      [⟨"p1", "1"⟩]).2.1,
   (mongodb_first_batch_reported_sent_but_not_inserted ⟨false⟩ (fun v => some v.pointId)
      [⟨"p1", "1"⟩]).2.2 rfl⟩

/-! Section 5: NorthSFTP.testConnection (backend/src/north/north-sftp/north-sftp.ts
lines 86-107).  The remote SFTP server is an explicit input describing what
client.connect and client.exists would answer. -/

/-- What client.exists(remoteFolder) reports: false, or the entry kind d, -, l. -/
inductive SftpExistsAnswer
  | missing
  | dir
  | file
  | link
deriving Repr, DecidableEq

/-- Answers of the remote server during the probe; an error means the call throws. -/
structure SftpWorld where
  connectAnswer : Except String Unit
  existsAnswer : Except String SftpExistsAnswer

/-- Which probe-connection steps ran: whether client.connect succeeded and whether
client.end() (line 93) was reached. -/
structure ProbeTrace where
  connected : Bool
  ended : Bool
deriving Repr, DecidableEq

/-- The access error thrown by the catch of lines 94-98. -/
def sftpAccessError (remoteFolder host : String) (port : Nat) (message : String) : String :=
  "Access error on \"" ++ remoteFolder ++ "\" on \"" ++ host ++ ":" ++ toString port ++
    "\": " ++ message

/-- The error of lines 100-103 for a missing or unreadable remote target. -/
def sftpMissingError (remoteFolder : String) : String :=
  "Remote target \"" ++ remoteFolder ++ "\" does not exist or the user does not have the right permissions"

/-- The error of line 105 for a remote target that is not a directory. -/
def sftpNotFolderError (remoteFolder : String) : String :=
  "Remote target \"" ++ remoteFolder ++ "\" is not a folder"

/-- Embedding of NorthSFTP.testConnection (lines 86-107): connect, probe the remote
folder with exists, end the probe client — all inside a try whose catch rethrows an
access error — then fail when the folder is missing or not a directory.  The method
reads only the connector settings and touches no lifecycle state, so it has no
connector-state parameter; the trace records which probe steps ran. -/
def testConnection (remoteFolder host : String) (port : Nat) (w : SftpWorld) :
    ProbeTrace × Except String Unit :=
  match w.connectAnswer with
  | .error e => (⟨false, false⟩, .error (sftpAccessError remoteFolder host port e))
  | .ok _ =>
    match w.existsAnswer with
    | .error e =>
      -- when exists throws, client.end() at line 93 is never reached:
      -- the probe connection stays open
      (⟨true, false⟩, .error (sftpAccessError remoteFolder host port e))
    | .ok folderExists =>
      match folderExists with
      | .missing => (⟨true, true⟩, .error (sftpMissingError remoteFolder))
      | .dir => (⟨true, true⟩, .ok ())
      | .file => (⟨true, true⟩, .error (sftpNotFolderError remoteFolder))
      | .link => (⟨true, true⟩, .error (sftpNotFolderError remoteFolder))

/-- C6 counterexample: when the connection succeeds but the existence probe itself
throws, testConnection surfaces the access error with the probe connection opened
and never ended — an execution path on which the probe connection is not torn
down. -/
theorem sftp_probe_not_torn_down :
    (testConnection "folder" "host" 22 ⟨.ok (), .error "permission denied"⟩).1 =
      ⟨true, false⟩ ∧
    (testConnection "folder" "host" 22 ⟨.ok (), .error "permission denied"⟩).2 =
      .error (sftpAccessError "folder" "host" 22 "permission denied") :=
  ⟨rfl, rfl⟩

/-- C6 (amended): testConnection touches no lifecycle state (it is a function of
the settings and the remote answers alone), succeeds exactly when connecting works
and the probe reports a directory, and otherwise fails with the matching
descriptive error; the probe connection is ended whenever the exists probe returns,
but when connect or exists itself throws the error is surfaced with the connection
left un-ended. -/
theorem sftp_testConnection_probe (remoteFolder host : String) (port : Nat)
    (w : SftpWorld) :
    ((testConnection remoteFolder host port w).2 = .ok () ↔
      (w.connectAnswer = .ok () ∧ w.existsAnswer = .ok .dir)) ∧
    (w.connectAnswer = .ok () → ∀ r, w.existsAnswer = .ok r →
      (testConnection remoteFolder host port w).1.ended = true) ∧
    (w.connectAnswer = .ok () → w.existsAnswer = .ok .missing →
      (testConnection remoteFolder host port w).2 = .error (sftpMissingError remoteFolder)) ∧
    (w.connectAnswer = .ok () → ∀ r, w.existsAnswer = .ok r → r ≠ .dir → r ≠ .missing →
      (testConnection remoteFolder host port w).2 = .error (sftpNotFolderError remoteFolder)) ∧
    (∀ e, w.connectAnswer = .error e →
      (testConnection remoteFolder host port w).2 =
        .error (sftpAccessError remoteFolder host port e)) ∧
    (w.connectAnswer = .ok () → ∀ e, w.existsAnswer = .error e →
      (testConnection remoteFolder host port w).2 =
          .error (sftpAccessError remoteFolder host port e) ∧
        (testConnection remoteFolder host port w).1.ended = false) := by
  rcases w with ⟨ca, ea⟩
  rcases ca with ce | cu
  · simp [testConnection]
  · rcases ea with ee | r
    · simp [testConnection]
    · cases r <;> simp [testConnection]

/-- Witness for C6 at a world whose probe reports a plain file. -/
theorem sftp_testConnection_probe_witness :
    ((⟨.ok (), .ok .file⟩ : SftpWorld).connectAnswer = .ok ()) ∧
    (testConnection "f" "h" 22 ⟨.ok (), .ok .file⟩).2 =
      .error (sftpNotFolderError "f") ∧
    (testConnection "f" "h" 22 ⟨.ok (), .ok .file⟩).1.ended = true :=
  ⟨rfl,
   (sftp_testConnection_probe "f" "h" 22 ⟨.ok (), .ok .file⟩).2.2.2.1 rfl .file rfl
     (by decide) (by decide),
   (sftp_testConnection_probe "f" "h" 22 ⟨.ok (), .ok .file⟩).2.1 rfl .file rfl⟩

/-! Section 6: the ipFilter Koa middleware (src/server/middlewares/ipFilter.js
lines 13-21).  micromatch.isMatch is an external library passed in as the matching
oracle; the logger the module references is not bound under src/ and is, per the
spec, a pure logging side effect. -/

/-- Observable outcome of one request through the middleware: either the downstream
handler (next) ran, or the request was rejected by ctx.throw(status, message). -/
inductive MiddlewareResult
  | passed
  | rejected (status : Nat) (message : String)
deriving Repr, DecidableEq

/-- Embedding of ipFilter(filter) applied to a request from ip: invoke next exactly
when micromatch.isMatch(ip, filter), else log and throw 401 access denied. -/
def ipFilter (isMatch : String → List String → Bool) (filter : List String)
    (ip : String) : MiddlewareResult :=
  if isMatch ip filter then .passed
  else .rejected 401 "access denied "

/-- C9: the middleware invokes the downstream handler exactly when the request ip
matches the configured filter, and otherwise rejects the request with HTTP status
401 without the downstream handler ever running. -/
theorem ipFilter_passes_iff_match (isMatch : String → List String → Bool)
    (filter : List String) (ip : String) :
    (ipFilter isMatch filter ip = .passed ↔ isMatch ip filter = true) ∧
    (isMatch ip filter = false →
      ipFilter isMatch filter ip = .rejected 401 "access denied ") := by
  constructor
  · by_cases h : isMatch ip filter <;> simp [ipFilter, h]
  · intro h
    simp [ipFilter, h]

/-- Witness for C9 with a literal matcher: a listed ip passes, an unlisted one is
rejected with 401. -/
theorem ipFilter_passes_iff_match_witness :
    (ipFilter (fun i l => l.contains i) ["127.0.0.1"] "127.0.0.1" = .passed ↔
      (fun (i : String) (l : List String) => l.contains i) "127.0.0.1" ["127.0.0.1"] = true) ∧
    ((fun (i : String) (l : List String) => l.contains i) "10.0.0.1" ["127.0.0.1"] = false ∧
      ipFilter (fun i l => l.contains i) ["127.0.0.1"] "10.0.0.1" = .rejected 401 "access denied ") :=
  ⟨(ipFilter_passes_iff_match (fun i l => l.contains i) ["127.0.0.1"] "127.0.0.1").1,
   by decide,
   (ipFilter_passes_iff_match (fun i l => l.contains i) ["127.0.0.1"] "10.0.0.1").2 (by decide)⟩

end OIBus
